import Mathlib

/-! Shallow embedding of the MSY→Ecwid synchronization engine
(marcofreccia/backend-server).  The development models, faithfully to the
JavaScript source: the price / stock / image policies of
`MSYEcwidSync.validateProduct` (src/server.js) and
`HybridMSYEcwidSync.normalizeProduct` (src/unnamed/part_001), the
multi-source feed acquisition with CSV→JSON fallback, the per-record
reconciliation and its statistics counters, the retry/backoff policy of
`EcwidSyncManager.withRetry`, the bounded in-memory log and the reported
error-record list, and the `POST /sync` trigger handler.  Prices are modelled
as rationals; JavaScript `Math.round`/`Math.floor` are modelled exactly on
rationals. -/

/-- JavaScript `Math.round`: round half toward positive infinity,
`Math.round(x) = floor(x + 0.5)`. -/
def jsRound (q : ℚ) : ℤ := ⌊q + 1/2⌋

/-- Rounding to 2 decimal places exactly as written in the source:
`Math.round(x * 100) / 100`. -/
def round2 (q : ℚ) : ℚ := (jsRound (q * 100) : ℚ) / 100

/-- A JavaScript value as it can reach the `stock` field of a product record
handed to `MSYEcwidSync.validateProduct` (src/server.js lines 131-140). -/
inductive JSV where
  | num (q : ℚ)
  | nan
  | str (s : String)
  | undef
  | null
deriving DecidableEq

/-- JavaScript truthiness of an optional string field: `undefined` and the
empty string are falsy, every other string is truthy. -/
def truthyStr : Option String → Bool
  | none => false
  | some s => s != ""

/-- JavaScript `String.prototype.trim`, modelled structurally on the
character list: leading and trailing whitespace is removed. -/
def jsTrim (s : String) : String :=
  String.mk (((s.toList.dropWhile Char.isWhitespace).reverse.dropWhile
    Char.isWhitespace).reverse)

/-- JavaScript `String.prototype.startsWith`, modelled structurally on the
character lists. -/
def jsStartsWith (s pre : String) : Bool := pre.toList.isPrefixOf s.toList

/-- Decimal value of a list of digit characters, as `parseInt`/`parseFloat`
accumulate them left to right. -/
def digitsToNat (ds : List Char) : ℕ :=
  ds.foldl (fun n c => 10 * n + (c.toNat - 48)) 0

/-- The syntactic pieces recognised by `parseFloat`: sign, integer digits,
fractional digits and the number of fractional digits. -/
structure FloatParts where
  neg : Bool
  intPart : ℕ
  fracPart : ℕ
  fracLen : ℕ
deriving DecidableEq

/-- The parsing phase of JavaScript `parseFloat`, restricted to the character
set that survives the source's sanitizing regex (digits, `.`, `,`, `-`): an
optional sign followed by the longest prefix of the form
`digits [ . digits ]`; the result is `NaN` (here `none`) when no digit is
consumed before parsing stops. -/
def parseFloatParts (s : String) : Option FloatParts :=
  let cs := s.toList
  let neg := cs.head? == some '-'
  let cs1 := if neg || cs.head? == some '+' then cs.drop 1 else cs
  let intDs := cs1.takeWhile Char.isDigit
  let rest := cs1.drop intDs.length
  let fracDs := if rest.head? == some '.' then (rest.drop 1).takeWhile Char.isDigit else []
  if intDs.isEmpty && fracDs.isEmpty then none
  else some ⟨neg, digitsToNat intDs, digitsToNat fracDs, fracDs.length⟩

/-- The numeric value of the parsed pieces. -/
def partsToQ (p : FloatParts) : ℚ :=
  let q : ℚ := (p.intPart : ℚ) + (p.fracPart : ℚ) / (10 : ℚ) ^ p.fracLen
  if p.neg then -q else q

/-- JavaScript `parseFloat` on the sanitized character set. -/
def parseFloatQ (s : String) : Option ℚ := (parseFloatParts s).map partsToQ

/-- Characters kept by the price-sanitizing regex of part_001's `parsePrice`:
`String(price).replace(/[^\d.,-]/g, '')`. -/
def isPriceChar (c : Char) : Bool := c.isDigit || c = '.' || c = ',' || c = '-'

/-- JavaScript `String.replace(',', '.')` with a non-global pattern: only the
first comma is replaced. -/
def replaceFirstComma : List Char → List Char
  | [] => []
  | c :: cs => if c = ',' then '.' :: cs else c :: replaceFirstComma cs

namespace Server

/- Embedding of class `MSYEcwidSync` (src/server.js lines 27-375) with its
configuration `REQUIRE_IMAGES: false`, `MIN_PRICE_THRESHOLD: 20`. -/

/-- Value of `CONFIG.REQUIRE_IMAGES` (src/server.js line 16). -/
def REQUIRE_IMAGES : Bool := false

/-- Value of `CONFIG.MIN_PRICE_THRESHOLD` (src/server.js line 17). -/
def MIN_PRICE_THRESHOLD : ℚ := 20

/-- A product record as consumed by `MSYEcwidSync.validateProduct`.  The
`price` field carries the result of `parseFloat(product.price)` (`none`
models `NaN`); the image fields carry the raw JavaScript values that
`validateImages` inspects. -/
structure SProduct where
  price : Option ℚ
  image : Option String
  images : List JSV
  gallery : List JSV
  stock : JSV
deriving DecidableEq

/-- Filter applied by `validateImages` to entries of `product.images` and
`product.gallery`: `img && typeof img === 'string'` keeps exactly the
non-empty strings. -/
def jsvValidImage : JSV → Option String
  | .str s => if s = "" then none else some s
  | _ => none

/-- Embeds `MSYEcwidSync.validateImages` (src/server.js lines 67-80). -/
def validateImages (p : SProduct) : List String :=
  (match p.image with
   | some i => if i = "" then [] else [i]
   | none => []) ++ p.images.filterMap jsvValidImage ++ p.gallery.filterMap jsvValidImage

/-- Embeds `MSYEcwidSync.calculatePrice` (src/server.js lines 83-89): doubles the
price and rounds to 2 decimals; returns `false` (here `none`) for `NaN` or
non-positive input. -/
def calculatePrice (originalPrice : Option ℚ) : Option ℚ :=
  match originalPrice with
  | none => none
  | some p => if p ≤ 0 then none else some (round2 (p * 2))

/-- Rejection reasons produced by `validateProduct` (the source's strings
`'NO_IMAGES'`, `'INVALID_PRICE'`, `'PRICE_TOO_LOW'`). -/
inductive VReason where
  | NO_IMAGES
  | INVALID_PRICE
  | PRICE_TOO_LOW
deriving DecidableEq

/-- Result of `validateProduct`: a rejection, or acceptance carrying the
computed price, the validated images and the sanitized stock. -/
inductive VResult where
  | rejected (reason : VReason)
  | accepted (price : ℚ) (images : List String) (stock : ℕ)
deriving DecidableEq

/-- Stock branch of `MSYEcwidSync.validateProduct` (src/server.js lines
131-140): a present numeric non-negative stock is floored, every other value
(negative, `NaN`, non-number, `undefined`, `null`) becomes `0`. -/
def sanitizeStock : JSV → ℕ
  | .num q => if q < 0 then 0 else ⌊q⌋.toNat
  | _ => 0

/-- Embeds `MSYEcwidSync.validateProduct` (src/server.js lines 92-148).  The check
`if (!finalPrice)` is JavaScript-falsy: it catches both `false` (`none`,
from `NaN` or non-positive input) and a computed price of exactly `0`. -/
def validateProduct (p : SProduct) : VResult :=
  let validImages := validateImages p
  if REQUIRE_IMAGES && validImages.isEmpty then .rejected .NO_IMAGES
  else
    match calculatePrice p.price with
    | none => .rejected .INVALID_PRICE
    | some v =>
      if v = 0 then .rejected .INVALID_PRICE
      else if v < MIN_PRICE_THRESHOLD then .rejected .PRICE_TOO_LOW
      else .accepted v validImages (sanitizeStock p.stock)

end Server

namespace Hybrid

/- Embedding of class `HybridMSYEcwidSync` (src/unnamed/part_001) with its
configuration `REQUIRE_IMAGES: false`, `MIN_PRICE_THRESHOLD: 15`,
`PRICE_MULTIPLIER: 2`. -/

/-- A feed record after CSV header translation (src/unnamed/part_001 lines
108-147): the fields the engine reads, all string-valued as parsed from the
CSV source (the JSON variant's values pass through `String()` identically in
the numeric parsers). -/
structure Row where
  article_num : Option String
  name : Option String
  price : Option String
  description : Option String
  stock : Option String
  brand : Option String
  main_category : Option String
  photo_1 : Option String
  photo_2 : Option String
  photo_3 : Option String
  photo_4 : Option String
  photo_5 : Option String
deriving DecidableEq

/-- Embeds `parsePrice` (src/unnamed/part_001 lines 32-37): strip characters outside
`[0-9.,-]`, replace the first comma with a dot, `parseFloat`, then `NaN → 0`
and clamp below at `0`. -/
def parsePrice (v : Option String) : ℚ :=
  match v with
  | none => 0
  | some s =>
    if s = "" then 0
    else
      let clean := String.mk (replaceFirstComma (s.toList.filter isPriceChar))
      match parseFloatQ clean with
      | none => 0
      | some q => max 0 q

/-- Embeds `parseStock` (src/unnamed/part_001 lines 39-44): strip every non-digit
character (including any minus sign and decimal point), `parseInt`, then
`NaN → 0`. -/
def parseStock (v : Option String) : ℕ :=
  match v with
  | none => 0
  | some s =>
    if s = "" then 0
    else
      let ds := s.toList.filter Char.isDigit
      if ds.isEmpty then 0 else digitsToNat ds

/-- One image field of `extractImages` (src/unnamed/part_001 lines 46-59): a
truthy field is trimmed and kept when it starts with `http://` or
`https://`. -/
def keepImage (f : Option String) : List String :=
  match f with
  | none => []
  | some raw =>
    if raw = "" then []
    else
      let url := jsTrim raw
      if url != "" && (jsStartsWith url ("http://") || jsStartsWith url ("https://")) then [url]
      else []

/-- Embeds `extractImages` (src/unnamed/part_001 lines 46-59) over the fields
`photo_1` … `photo_5`, order preserved. -/
def extractImages (r : Row) : List String :=
  keepImage r.photo_1 ++ keepImage r.photo_2 ++ keepImage r.photo_3 ++
    keepImage r.photo_4 ++ keepImage r.photo_5

/-- The `reasons` breakdown of the run statistics. -/
structure Reasons where
  noImages : ℕ
  lowPrice : ℕ
  invalidData : ℕ
  apiError : ℕ
deriving DecidableEq

/-- The run statistics of `HybridMSYEcwidSync` (src/unnamed/part_001 lines
67-86), without the timing fields. -/
structure Stats where
  total : ℕ
  processed : ℕ
  created : ℕ
  updated : ℕ
  ignored : ℕ
  errors : ℕ
  reasons : Reasons
deriving DecidableEq

/-- The statistics right after `resetStats()` and `stats.total = n`. -/
def initStats (total : ℕ) : Stats :=
  ⟨total, 0, 0, 0, 0, 0, ⟨0, 0, 0, 0⟩⟩

/-- The validation-relevant configuration values of part_001's `CONFIG`. -/
structure SyncCfg where
  REQUIRE_IMAGES : Bool
  MIN_PRICE_THRESHOLD : ℚ
  PRICE_MULTIPLIER : ℚ
deriving DecidableEq

/-- Values of `CONFIG` of src/unnamed/part_001 (lines 22-24): images not required,
minimum price threshold 15, price multiplier 2. -/
def part001Cfg : SyncCfg := ⟨false, 15, 2⟩

/-- The canonical product built by `normalizeProduct` on acceptance. -/
structure NormProduct where
  sku : String
  name : String
  description : String
  price : ℚ
  quantity : ℕ
  brand : String
  category : String
  images : List String
  originalPrice : ℚ
deriving DecidableEq

/-- Embeds `HybridMSYEcwidSync.normalizeProduct` (src/unnamed/part_001 lines
223-269): data-validity checks (truthy `article_num`, `name`, `price`, then
parsed price strictly positive), then the minimum-price threshold on the
multiplied (unrounded) price, then the image requirement; each rejection
increments exactly one `reasons` counter and yields `null`.  The accepted
record's `price` is the multiplied price rounded to 2 decimals. -/
def normalizeProduct (cfg : SyncCfg) (st : Stats) (p : Row) : Stats × Option NormProduct :=
  if !(truthyStr p.article_num && truthyStr p.name && truthyStr p.price) then
    ({ st with reasons := { st.reasons with invalidData := st.reasons.invalidData + 1 } }, none)
  else
    let originalPrice := parsePrice p.price
    if originalPrice ≤ 0 then
      ({ st with reasons := { st.reasons with invalidData := st.reasons.invalidData + 1 } }, none)
    else
      let finalPrice := originalPrice * cfg.PRICE_MULTIPLIER
      if finalPrice < cfg.MIN_PRICE_THRESHOLD then
        ({ st with reasons := { st.reasons with lowPrice := st.reasons.lowPrice + 1 } }, none)
      else
        let images := extractImages p
        if cfg.REQUIRE_IMAGES && images.isEmpty then
          ({ st with reasons := { st.reasons with noImages := st.reasons.noImages + 1 } }, none)
        else
          (st, some {
            sku := jsTrim (p.article_num.getD "")
            name := jsTrim (p.name.getD "")
            description := jsTrim (p.description.getD "")
            price := round2 finalPrice
            quantity := parseStock p.stock
            brand := jsTrim (p.brand.getD "")
            category := jsTrim (p.main_category.getD "")
            images := images
            originalPrice := originalPrice })

/-- Outcome of the Ecwid search call for one SKU, as seen by
`searchEcwidProduct`: an HTTP 200 with its `items` list (entity ids), or a
thrown error (network failure or non-ok status). -/
inductive SearchResp where
  | items (found : List ℕ)
  | thrown
deriving DecidableEq

/-- Outcome of the Ecwid create/update call for one record: success, or a
thrown error carrying the error message (any non-ok status — including a
duplicate-SKU conflict on create — or a network failure). -/
inductive UpsertResp where
  | ok
  | thrown (msg : String)
deriving DecidableEq

/-- The destination's behaviour for one record's processing. -/
structure RecEnv where
  searchR : SearchResp
  upsertR : UpsertResp
deriving DecidableEq

/-- An entry of `errorSKUs`. -/
structure ErrEntry where
  sku : String
  step : String
  error : String
deriving DecidableEq

/-- Embeds `HybridMSYEcwidSync.searchEcwidProduct` (src/unnamed/part_001 lines
272-299): on success the first item (or `null`); on any error the catch
block bumps `reasons.apiError` and returns `null` — the error is swallowed. -/
def searchEcwidProduct (st : Stats) (r : SearchResp) : Stats × Option ℕ :=
  match r with
  | .items l => (st, l.head?)
  | .thrown =>
    ({ st with reasons := { st.reasons with apiError := st.reasons.apiError + 1 } }, none)

/-- Embeds `HybridMSYEcwidSync.upsertEcwidProduct` (src/unnamed/part_001 lines
302-376): on success `updated` or `created` is incremented according to
whether an existing entity was supplied; on a thrown error `errors` and
`reasons.apiError` are incremented, an `errorSKUs` entry with step
`update`/`create` is pushed, and the error is rethrown (the `Bool` records
that the call threw). -/
def upsertEcwidProduct (st : Stats) (es : List ErrEntry) (prod : NormProduct)
    (existing : Option ℕ) (r : UpsertResp) : Stats × List ErrEntry × Bool :=
  match r with
  | .ok =>
    match existing with
    | some _ => ({ st with updated := st.updated + 1 }, es, false)
    | none => ({ st with created := st.created + 1 }, es, false)
  | .thrown msg =>
    ({ st with errors := st.errors + 1,
               reasons := { st.reasons with apiError := st.reasons.apiError + 1 } },
     es ++ [⟨prod.sku, (match existing with | some _ => "update" | none => "create"), msg⟩],
     true)

/-- Embeds `HybridMSYEcwidSync.processProduct` (src/unnamed/part_001 lines 379-395):
a record rejected by normalization is counted `ignored`; otherwise search
(whose errors are swallowed) then upsert; if the upsert threw, the outer
catch increments `errors` once more, else `processed` is incremented. -/
def processProduct (cfg : SyncCfg) (st : Stats) (es : List ErrEntry)
    (p : Row) (env : RecEnv) : Stats × List ErrEntry :=
  match normalizeProduct cfg st p with
  | (st1, none) => ({ st1 with ignored := st1.ignored + 1 }, es)
  | (st1, some prod) =>
    let s2 := searchEcwidProduct st1 env.searchR
    let u := upsertEcwidProduct s2.1 es prod s2.2 env.upsertR
    if u.2.2 then ({ u.1 with errors := u.1.errors + 1 }, u.2.1)
    else ({ u.1 with processed := u.1.processed + 1 }, u.2.1)

/-- Embeds `HybridMSYEcwidSync.processBatch` (src/unnamed/part_001 lines 398-425)
folded over the records.  Batch partitioning and the `Promise.all`
interleaving inside a batch do not affect the final counters (each record
contributes independent additions on the single-threaded runtime), so the
run is modelled sequentially. -/
def processBatch (cfg : SyncCfg) : Stats → List ErrEntry → List (Row × RecEnv) →
    Stats × List ErrEntry
  | st, es, [] => (st, es)
  | st, es, (p, env) :: rest =>
    let r := processProduct cfg st es p env
    processBatch cfg r.1 r.2 rest

/-- The record-processing phase of `HybridMSYEcwidSync.sync` (src/unnamed/
part_001 lines 428-459): `resetStats()`, `stats.total = products.length`,
then `processBatch` over all records. -/
def runSync (cfg : SyncCfg) (recs : List (Row × RecEnv)) : Stats × List ErrEntry :=
  processBatch cfg (initStats recs.length) [] recs

/-- Outcome of a feed-source HTTP request: a body, an HTTP error status, or
a network error. -/
inductive FetchResp (α : Type) where
  | ok (body : α)
  | httpError (status : ℕ)
  | netError (msg : String)

/-- Result of a fallible feed step (`Except`-like, with decidable equality). -/
inductive FetchOutcome (α : Type) where
  | ok (val : α)
  | error (msg : String)
deriving DecidableEq

/-- Validity filter applied to parsed CSV rows (src/unnamed/part_001 lines
143-147): truthy and non-blank `article_num`, `price` and `name`. -/
def csvRowValid (r : Row) : Bool :=
  truthyStr r.article_num && jsTrim (r.article_num.getD "") != "" &&
  (truthyStr r.price && jsTrim (r.price.getD "") != "") &&
  (truthyStr r.name && jsTrim (r.name.getD "") != "")

/-- Embeds `HybridMSYEcwidSync.fetchCSVProducts` (src/unnamed/part_001 lines
89-160): throws on a non-ok response or network error; an HTTP 200 body is
parsed and filtered — a parse yielding zero valid rows is returned as a
successful empty list, not an error. -/
def fetchCSVProducts (resp : FetchResp (List Row)) : FetchOutcome (List Row) :=
  match resp with
  | .ok rows => .ok (rows.filter csvRowValid)
  | .httpError status => .error ("CSV error: " ++ toString status)
  | .netError msg => .error msg

/-- Body of the JSON feed endpoint: a document with a `price_list` array, or
anything else (missing/ill-typed `price_list`). -/
inductive JsonBody where
  | priceList (items : List Row)
  | invalidStructure
deriving DecidableEq

/-- Embeds `HybridMSYEcwidSync.fetchJSONProducts` (src/unnamed/part_001 lines
163-190): throws on a non-ok response, network error, or a body without a
`price_list` array. -/
def fetchJSONProducts (resp : FetchResp JsonBody) : FetchOutcome (List Row) :=
  match resp with
  | .ok (.priceList items) => .ok items
  | .ok .invalidStructure => .error ("JSON structure invalid")
  | .httpError status => .error ("JSON error: " ++ toString status)
  | .netError msg => .error msg

/-- The feed source that was used for a run. -/
inductive FeedSource where
  | CSV_PRIMARY
  | JSON_FALLBACK
deriving DecidableEq

/-- Result of multi-source feed acquisition. -/
structure FeedResult where
  source : FeedSource
  products : List Row
  errors : List String
deriving DecidableEq

/-- Embeds `HybridMSYEcwidSync.fetchProductsMultiSource` (src/unnamed/part_001
lines 193-220): CSV first; on a CSV throw the error is recorded and JSON is
tried; if both throw, the combined error message lists both errors. -/
def fetchProductsMultiSource (csv : FetchResp (List Row)) (json : FetchResp JsonBody) :
    FetchOutcome FeedResult :=
  match fetchCSVProducts csv with
  | .ok ps => .ok ⟨.CSV_PRIMARY, ps, []⟩
  | .error e1 =>
    match fetchJSONProducts json with
    | .ok ps => .ok ⟨.JSON_FALLBACK, ps, ["CSV: " ++ e1]⟩
    | .error e2 =>
      .error ("Tutte le fonti fallite: CSV: " ++ e1 ++ " | JSON: " ++ e2)

/-- Embeds `HybridMSYEcwidSync.sync` (src/unnamed/part_001 lines 428-459): a failed
feed acquisition propagates its error before any record is processed;
otherwise the records are processed and the used source reported. -/
def sync (cfg : SyncCfg) (csv : FetchResp (List Row)) (json : FetchResp JsonBody)
    (envs : List RecEnv) : FetchOutcome (FeedSource × Stats × List ErrEntry) :=
  match fetchProductsMultiSource csv json with
  | .error e => .error e
  | .ok fr => .ok (fr.source, runSync cfg (fr.products.zip envs))

end Hybrid

namespace Retry

/- Embedding of `EcwidSyncManager.withRetry` (src/server.js lines 544-581,
enhanced variant: maxRetries 7, retryDelay 1500, delay cap 60000 with jitter
in [0, 1000); lines 1444-1483, basic variant: maxRetries 5, retryDelay 1000,
delay cap 30000, no jitter). -/

/-- Outcome of one invocation of the wrapped operation. -/
inductive CallOutcome where
  | ok
  | err (status : Option ℕ)
deriving DecidableEq

/-- The statuses `withRetry` never retries:
`error.response?.status === 404 || 401 || 403`.  An error without an HTTP
response (`none`: network error, timeout) is retried. -/
def isDefinitiveStatus : Option ℕ → Bool
  | some 404 => true
  | some 401 => true
  | some 403 => true
  | _ => false

/-- The backoff delay computed at a given attempt:
`min(retryDelay * 2^(attempt-1) + jitter, maxDelay)`. -/
def backoffDelay (retryDelay maxDelay : ℚ) (jitter : ℕ → ℚ) (attempt : ℕ) : ℚ :=
  min (retryDelay * 2 ^ (attempt - 1) + jitter attempt) maxDelay

/-- Final outcome of `withRetry`, with the attempt number that produced it. -/
inductive RetryOutcome where
  | success (attempt : ℕ)
  | definitive (status : Option ℕ) (attempt : ℕ)
  | exhausted (attempt : ℕ)
deriving DecidableEq

/-- The retry loop of `withRetry`, from a given attempt number with the
remaining number of attempts as fuel.  Returns the outcome and the list of
delays actually slept (the loop sleeps only when `attempt < maxRetries`). -/
def withRetryGo (maxRetries : ℕ) (retryDelay maxDelay : ℚ) (jitter : ℕ → ℚ)
    (calls : ℕ → CallOutcome) : ℕ → ℕ → RetryOutcome × List ℚ
  | 0, attempt => (.exhausted (attempt - 1), [])
  | fuel + 1, attempt =>
    match calls attempt with
    | .ok => (.success attempt, [])
    | .err s =>
      if isDefinitiveStatus s then (.definitive s attempt, [])
      else if attempt < maxRetries then
        let d := backoffDelay retryDelay maxDelay jitter attempt
        let r := withRetryGo maxRetries retryDelay maxDelay jitter calls fuel (attempt + 1)
        (r.1, d :: r.2)
      else (.exhausted attempt, [])

/-- Embeds `EcwidSyncManager.withRetry`: attempts `1 .. maxRetries`; a definitive
client error is rethrown immediately, any other error is retried after an
exponential-backoff sleep; after the last attempt the last error is
rethrown. -/
def withRetry (maxRetries : ℕ) (retryDelay maxDelay : ℚ) (jitter : ℕ → ℚ)
    (calls : ℕ → CallOutcome) : RetryOutcome × List ℚ :=
  withRetryGo maxRetries retryDelay maxDelay jitter calls maxRetries 1

end Retry

/-- Embeds `EcwidSyncManager.log` tail truncation (src/server.js lines 507-530, cap
2000; lines 1424-1441, cap 1000): push the entry, then keep only the last
`cap` entries (`slice(-cap)`), dropping the oldest first. -/
def logAppend (cap : ℕ) (logs : List α) (e : α) : List α :=
  let l := logs ++ [e]
  if cap < l.length then l.drop (l.length - cap) else l

/-- The error-record list placed in the final report
(`this.errorSKUs.slice(0, 10)`, src/server.js line 353 and
src/unnamed/part_001 line 480): the first 10 entries. -/
def reportErrorSKUs (es : List α) : List α := es.take 10

/-- Response of the `POST /sync` endpoint to a trigger. -/
inductive TriggerResponse where
  | runStarted
  | alreadyRunning
deriving DecidableEq

/-- Observable server state for the sync trigger: the number of in-flight
`sync()` invocations (a ghost counter — the source keeps no such flag) and
the shared statistics of the global `syncService` instance. -/
structure ServerState where
  activeRuns : ℕ
  stats : Hybrid.Stats
deriving DecidableEq

/-- Handler of `POST /sync` (src/server.js lines 393-406 and
src/unnamed/part_001 lines 542-556): it unconditionally awaits
`syncService.sync()`, which begins with `resetStats()`.  No already-running
guard exists in the source, so every trigger starts another run. -/
def handleSyncPost (s : ServerState) : TriggerResponse × ServerState :=
  (.runStarted, ⟨s.activeRuns + 1, Hybrid.initStats 0⟩)

/- Concrete feed rows used by the closed theorems below. -/

/-- A valid feed row (sku A1, price 10, stock 3). -/
def rowA1 : Hybrid.Row :=
  ⟨some ("A1"), some ("Widget"), some ("10"), none, some ("3"),
   none, none, none, none, none, none, none⟩

/-- A valid feed row (sku B2, price 25). -/
def rowB2 : Hybrid.Row :=
  ⟨some ("B2"), some ("Gadget"), some ("25"), none, none,
   none, none, none, none, none, none, none⟩

/-- A valid feed row (sku C3, price 8, so computed price 16 ≥ 15). -/
def rowC3 : Hybrid.Row :=
  ⟨some ("C3"), some ("Cable"), some ("8"), none, none,
   none, none, none, none, none, none, none⟩

/-- A valid feed row (sku D4, price 7.4995: the multiplied price 14.999 is
below the threshold 15 while its 2-decimal rounding is exactly 15). -/
def rowD4 : Hybrid.Row :=
  ⟨some ("D4"), some ("Thing"), some ("7.4995"), none, none,
   none, none, none, none, none, none, none⟩

/-- A CSV row with no price field: it fails the CSV validity filter. -/
def rowNoPrice : Hybrid.Row :=
  ⟨some ("E5"), some ("NoPrice"), none, none, none,
   none, none, none, none, none, none, none⟩


/-! ## Helper lemmas -/

/-- Evaluation rule for `jsRound` at a known integer value. -/
theorem jsRound_eq {q : ℚ} {z : ℤ} (h1 : (z : ℚ) ≤ q + 1/2) (h2 : q + 1/2 < z + 1) :
    jsRound q = z := by
  rw [jsRound, Int.floor_eq_iff]
  exact ⟨h1, h2⟩

/-- Evaluation rule for `round2` at a known value `z / 100`. -/
theorem round2_eq {q : ℚ} {z : ℤ} (h1 : (z : ℚ) ≤ q * 100 + 1/2) (h2 : q * 100 + 1/2 < z + 1) :
    round2 q = (z : ℚ) / 100 := by
  rw [round2, jsRound_eq h1 h2]

/-- First rejection branch of `normalizeProduct`: a falsy `article_num`,
`name` or `price` field. -/
theorem norm_reject_fields (cfg : Hybrid.SyncCfg) (st : Hybrid.Stats) (r : Hybrid.Row)
    (h : (truthyStr r.article_num && truthyStr r.name && truthyStr r.price) = false) :
    Hybrid.normalizeProduct cfg st r =
      ({ st with reasons :=
          { st.reasons with invalidData := st.reasons.invalidData + 1 } }, none) := by
  simp [Hybrid.normalizeProduct, h]

/-- Second rejection branch of `normalizeProduct`: non-positive parsed price. -/
theorem norm_reject_price (cfg : Hybrid.SyncCfg) (st : Hybrid.Stats) (r : Hybrid.Row)
    (h : (truthyStr r.article_num && truthyStr r.name && truthyStr r.price) = true)
    (hle : Hybrid.parsePrice r.price ≤ 0) :
    Hybrid.normalizeProduct cfg st r =
      ({ st with reasons :=
          { st.reasons with invalidData := st.reasons.invalidData + 1 } }, none) := by
  simp [Hybrid.normalizeProduct, h, hle]

/-- Third rejection branch of `normalizeProduct`: multiplied price below the
threshold. -/
theorem norm_reject_low (cfg : Hybrid.SyncCfg) (st : Hybrid.Stats) (r : Hybrid.Row)
    (h : (truthyStr r.article_num && truthyStr r.name && truthyStr r.price) = true)
    (hpos : 0 < Hybrid.parsePrice r.price)
    (hlt : Hybrid.parsePrice r.price * cfg.PRICE_MULTIPLIER < cfg.MIN_PRICE_THRESHOLD) :
    Hybrid.normalizeProduct cfg st r =
      ({ st with reasons :=
          { st.reasons with lowPrice := st.reasons.lowPrice + 1 } }, none) := by
  simp [Hybrid.normalizeProduct, h, not_le.mpr hpos, hlt]

/-- Fourth rejection branch of `normalizeProduct`: images required but none
extracted. -/
theorem norm_reject_img (cfg : Hybrid.SyncCfg) (st : Hybrid.Stats) (r : Hybrid.Row)
    (h : (truthyStr r.article_num && truthyStr r.name && truthyStr r.price) = true)
    (hpos : 0 < Hybrid.parsePrice r.price)
    (hge : ¬ Hybrid.parsePrice r.price * cfg.PRICE_MULTIPLIER < cfg.MIN_PRICE_THRESHOLD)
    (hreq : cfg.REQUIRE_IMAGES = true) (himg : Hybrid.extractImages r = []) :
    Hybrid.normalizeProduct cfg st r =
      ({ st with reasons :=
          { st.reasons with noImages := st.reasons.noImages + 1 } }, none) := by
  simp [Hybrid.normalizeProduct, h, not_le.mpr hpos, hge, hreq, himg]

/-- Acceptance branch of `normalizeProduct`: all checks pass; the statistics
are unchanged and the canonical product is built. -/
theorem norm_accept (cfg : Hybrid.SyncCfg) (st : Hybrid.Stats) (r : Hybrid.Row)
    (h : (truthyStr r.article_num && truthyStr r.name && truthyStr r.price) = true)
    (hpos : 0 < Hybrid.parsePrice r.price)
    (hge : ¬ Hybrid.parsePrice r.price * cfg.PRICE_MULTIPLIER < cfg.MIN_PRICE_THRESHOLD)
    (himgs : cfg.REQUIRE_IMAGES = false ∨ Hybrid.extractImages r ≠ []) :
    Hybrid.normalizeProduct cfg st r =
      (st, some ⟨jsTrim (r.article_num.getD ""), jsTrim (r.name.getD ""),
        jsTrim (r.description.getD ""),
        round2 (Hybrid.parsePrice r.price * cfg.PRICE_MULTIPLIER),
        Hybrid.parseStock r.stock, jsTrim (r.brand.getD ""),
        jsTrim (r.main_category.getD ""), Hybrid.extractImages r,
        Hybrid.parsePrice r.price⟩) := by
  rcases himgs with hreq | hne
  · simp [Hybrid.normalizeProduct, h, not_le.mpr hpos, hge, hreq]
  · simp [Hybrid.normalizeProduct, h, not_le.mpr hpos, hge, hne]

/-- Evaluation rule for `parsePrice` via the decidable parsing phase. -/
theorem parsePrice_eval {s : String} {p : FloatParts}
    (h : parseFloatParts (String.mk (replaceFirstComma (s.toList.filter isPriceChar))) = some p)
    (hs : s ≠ "") :
    Hybrid.parsePrice (some s) = max 0 (partsToQ p) := by
  simp only [String.toList] at h
  simp [Hybrid.parsePrice, parseFloatQ, hs, h]

/-- Evaluation of `parsePrice` at the feed string `"10"`. -/
theorem parsePrice_10 : Hybrid.parsePrice (some ("10")) = 10 := by
  rw [parsePrice_eval (p := ⟨false, 10, 0, 0⟩) (by decide) (by decide)]
  norm_num [partsToQ]

/-- Evaluation of `parsePrice` at the feed string `"25"`. -/
theorem parsePrice_25 : Hybrid.parsePrice (some ("25")) = 25 := by
  rw [parsePrice_eval (p := ⟨false, 25, 0, 0⟩) (by decide) (by decide)]
  norm_num [partsToQ]

/-- Evaluation of `parsePrice` at the feed string `"8"`. -/
theorem parsePrice_8 : Hybrid.parsePrice (some ("8")) = 8 := by
  rw [parsePrice_eval (p := ⟨false, 8, 0, 0⟩) (by decide) (by decide)]
  norm_num [partsToQ]

/-- Evaluation of `parsePrice` at the feed string `"7.4995"`. -/
theorem parsePrice_74995 : Hybrid.parsePrice (some ("7.4995")) = 14999/2000 := by
  rw [parsePrice_eval (p := ⟨false, 7, 4995, 4⟩) (by decide) (by decide)]
  norm_num [partsToQ]

/-- The canonical product `normalizeProduct` builds from `rowA1`. -/
def prodA1 : Hybrid.NormProduct :=
  ⟨"A1", "Widget", "", round2 (10 * 2), 3, "", "", [], 10⟩

/-- The canonical product `normalizeProduct` builds from `rowB2`. -/
def prodB2 : Hybrid.NormProduct :=
  ⟨"B2", "Gadget", "", round2 (25 * 2), 0, "", "", [], 25⟩

/-- The canonical product `normalizeProduct` builds from `rowC3`. -/
def prodC3 : Hybrid.NormProduct :=
  ⟨"C3", "Cable", "", round2 (8 * 2), 0, "", "", [], 8⟩

/-- Row `rowA1` is accepted by normalization, leaving the statistics unchanged. -/
theorem normalize_rowA1 (st : Hybrid.Stats) :
    Hybrid.normalizeProduct Hybrid.part001Cfg st rowA1 = (st, some prodA1) := by
  have hp : Hybrid.parsePrice rowA1.price = 10 := parsePrice_10
  rw [norm_accept Hybrid.part001Cfg st rowA1 (by decide)
    (by rw [hp]; norm_num)
    (by rw [hp]; show ¬ (10 : ℚ) * 2 < 15; norm_num) (Or.inl rfl), hp,
    (rfl : Hybrid.part001Cfg.PRICE_MULTIPLIER = (2 : ℚ))]
  rfl

/-- Row `rowB2` is accepted by normalization, leaving the statistics unchanged. -/
theorem normalize_rowB2 (st : Hybrid.Stats) :
    Hybrid.normalizeProduct Hybrid.part001Cfg st rowB2 = (st, some prodB2) := by
  have hp : Hybrid.parsePrice rowB2.price = 25 := parsePrice_25
  rw [norm_accept Hybrid.part001Cfg st rowB2 (by decide)
    (by rw [hp]; norm_num)
    (by rw [hp]; show ¬ (25 : ℚ) * 2 < 15; norm_num) (Or.inl rfl), hp,
    (rfl : Hybrid.part001Cfg.PRICE_MULTIPLIER = (2 : ℚ))]
  rfl

/-- Row `rowC3` is accepted by normalization, leaving the statistics unchanged. -/
theorem normalize_rowC3 (st : Hybrid.Stats) :
    Hybrid.normalizeProduct Hybrid.part001Cfg st rowC3 = (st, some prodC3) := by
  have hp : Hybrid.parsePrice rowC3.price = 8 := parsePrice_8
  rw [norm_accept Hybrid.part001Cfg st rowC3 (by decide)
    (by rw [hp]; norm_num)
    (by rw [hp]; show ¬ (8 : ℚ) * 2 < 15; norm_num) (Or.inl rfl), hp,
    (rfl : Hybrid.part001Cfg.PRICE_MULTIPLIER = (2 : ℚ))]
  rfl

/-- A run over the single valid record `rowA1` whose upsert call throws:
`errors` is incremented twice. -/
theorem run_rowA1_fail :
    Hybrid.runSync Hybrid.part001Cfg [(rowA1, ⟨.items [], .thrown ("HTTP 500")⟩)]
      = (⟨1, 0, 0, 0, 0, 2, ⟨0, 0, 0, 1⟩⟩, [⟨"A1", "create", "HTTP 500"⟩]) := by
  simp [Hybrid.runSync, Hybrid.processBatch, Hybrid.processProduct, normalize_rowA1,
    Hybrid.searchEcwidProduct, Hybrid.upsertEcwidProduct, Hybrid.initStats, prodA1]

/-! ## Theorems for the claims -/

/-- C1 is false as stated.  (a) src/server.js: for `rawPrice = 1/500 > 0`
the computed price `round(rawPrice × 2, 2) = 0` is below the threshold 20,
yet `validateProduct` rejects the record as `INVALID_PRICE` (counted
`invalidData`), not `PRICE_TOO_LOW`, because JavaScript's `!finalPrice` is
true for `0`.  (b) src/unnamed/part_001: for the feed price `7.4995` the
threshold check uses the unrounded multiplied price `14.999 < 15` and
rejects `lowPrice`, although the computed price `round(7.4995 × 2, 2) = 15`
is not below the threshold. -/
theorem c1_counterexample :
    (Server.validateProduct ⟨some (1/500), none, [], [], JSV.num 3⟩
        = .rejected .INVALID_PRICE
      ∧ round2 ((1/500 : ℚ) * 2) < 20
      ∧ Server.VReason.INVALID_PRICE ≠ Server.VReason.PRICE_TOO_LOW)
    ∧ ((Hybrid.normalizeProduct Hybrid.part001Cfg (Hybrid.initStats 0) rowD4).2 = none
      ∧ (Hybrid.normalizeProduct Hybrid.part001Cfg (Hybrid.initStats 0) rowD4).1.reasons.lowPrice
          = 1
      ∧ ¬ round2 (Hybrid.parsePrice (some ("7.4995")) * 2) < 15) := by
  have h0 : round2 ((1/500 : ℚ) * 2) = 0 := by
    have h := round2_eq (q := (1/500 : ℚ) * 2) (z := 0) (by norm_num) (by norm_num)
    rw [h]; norm_num
  have hne : ¬ ((1 : ℚ)/500 ≤ 0) := by norm_num
  have hc : Server.calculatePrice (some (1/500 : ℚ)) = some 0 := by
    simp only [Server.calculatePrice]
    rw [if_neg hne, h0]
  have key : ∀ q : Option ℚ, Server.calculatePrice q = some 0 →
      ∀ im ims gal stk, Server.validateProduct ⟨q, im, ims, gal, stk⟩
        = .rejected .INVALID_PRICE := by
    intro q hq im ims gal stk
    simp [Server.validateProduct, Server.REQUIRE_IMAGES, hq]
  have hlow := norm_reject_low Hybrid.part001Cfg (Hybrid.initStats 0) rowD4 (by decide)
    (by show (0 : ℚ) < Hybrid.parsePrice (some ("7.4995"))
        rw [parsePrice_74995]; norm_num)
    (by show Hybrid.parsePrice (some ("7.4995")) * (2 : ℚ) < 15
        rw [parsePrice_74995]; norm_num)
  refine ⟨⟨key _ hc none [] [] (JSV.num 3), ?_, by decide⟩, ⟨?_, ?_, ?_⟩⟩
  · rw [h0]; norm_num
  · rw [hlow]
  · rw [hlow]; rfl
  · rw [parsePrice_74995, round2_eq (z := 1500) (by norm_num) (by norm_num)]
    norm_num

/-- C1 (amended): for every record with `rawPrice > 0`: (a) in src/server.js,
provided the computed price `round(rawPrice × 2, 2)` is nonzero, the record
is rejected `PRICE_TOO_LOW` exactly when that computed (post-multiplication,
rounded) price is below the threshold 20, and an accepted record carries
exactly that computed price; (b) in src/unnamed/part_001 the record is
rejected exactly when the unrounded multiplied price `rawPrice × 2` is below
the threshold 15, and an accepted record's price is `round(rawPrice × 2, 2)`.
In both variants the threshold compares a post-multiplication price, never
the raw source price. -/
theorem c1_price_policy :
    (∀ (p : Server.SProduct) (raw : ℚ), p.price = some raw → 0 < raw →
        round2 (raw * 2) ≠ 0 →
        ((Server.validateProduct p = .rejected .PRICE_TOO_LOW ↔ round2 (raw * 2) < 20)
          ∧ ∀ v imgs stk, Server.validateProduct p = .accepted v imgs stk →
              v = round2 (raw * 2)))
    ∧ (∀ (st : Hybrid.Stats) (r : Hybrid.Row),
        (truthyStr r.article_num && truthyStr r.name && truthyStr r.price) = true →
        0 < Hybrid.parsePrice r.price →
        (((Hybrid.normalizeProduct Hybrid.part001Cfg st r).2 = none ↔
            Hybrid.parsePrice r.price * 2 < 15)
          ∧ ∀ prod, (Hybrid.normalizeProduct Hybrid.part001Cfg st r).2 = some prod →
              prod.price = round2 (Hybrid.parsePrice r.price * 2))) := by
  constructor
  · intro p raw hp hraw hnz
    have hcalc : Server.calculatePrice p.price = some (round2 (raw * 2)) := by
      simp [Server.calculatePrice, hp, not_le.mpr hraw]
    by_cases hlt : round2 (raw * 2) < 20 <;>
      simp [Server.validateProduct, Server.REQUIRE_IMAGES, Server.MIN_PRICE_THRESHOLD,
        hcalc, hnz, hlt]
  · intro st r htr hpos
    by_cases hlt : Hybrid.parsePrice r.price * 2 < 15
    · rw [norm_reject_low Hybrid.part001Cfg st r htr hpos hlt]
      simp [hlt]
    · rw [norm_accept Hybrid.part001Cfg st r htr hpos hlt (Or.inl rfl)]
      simp [hlt]
      rfl

/-- C1 witness: `rawPrice = 9` gives computed price `18 < 20` and the record
is rejected `PRICE_TOO_LOW`. -/
theorem c1_witness :
    Server.validateProduct ⟨some 9, none, [], [], JSV.num 0⟩ = .rejected .PRICE_TOO_LOW := by
  have h18 : round2 ((9 : ℚ) * 2) = 18 := by
    have h := round2_eq (q := (9 : ℚ) * 2) (z := 1800) (by norm_num) (by norm_num)
    rw [h]; norm_num
  exact ((c1_price_policy.1 ⟨some 9, none, [], [], JSV.num 0⟩ 9 rfl (by norm_num)
    (by rw [h18]; norm_num)).1).mpr (by rw [h18]; norm_num)

/-- C2: in `HybridMSYEcwidSync.normalizeProduct` the policy checks are
evaluated in the fixed order data validity (truthy fields, then positive
parsed price) → price threshold → image requirement; a record is rejected
only for the first check it fails, and each rejection increments exactly the
matching `reasons` counter (`invalidData` / `lowPrice` / `noImages`) exactly
once, leaving every other counter untouched; an accepted record leaves the
statistics unchanged. -/
theorem c2_rejection_order (cfg : Hybrid.SyncCfg) (st : Hybrid.Stats) (r : Hybrid.Row) :
    ((truthyStr r.article_num && truthyStr r.name && truthyStr r.price) = false →
        Hybrid.normalizeProduct cfg st r =
          ({ st with reasons :=
              { st.reasons with invalidData := st.reasons.invalidData + 1 } }, none))
    ∧ ((truthyStr r.article_num && truthyStr r.name && truthyStr r.price) = true →
        Hybrid.parsePrice r.price ≤ 0 →
        Hybrid.normalizeProduct cfg st r =
          ({ st with reasons :=
              { st.reasons with invalidData := st.reasons.invalidData + 1 } }, none))
    ∧ ((truthyStr r.article_num && truthyStr r.name && truthyStr r.price) = true →
        0 < Hybrid.parsePrice r.price →
        Hybrid.parsePrice r.price * cfg.PRICE_MULTIPLIER < cfg.MIN_PRICE_THRESHOLD →
        Hybrid.normalizeProduct cfg st r =
          ({ st with reasons :=
              { st.reasons with lowPrice := st.reasons.lowPrice + 1 } }, none))
    ∧ ((truthyStr r.article_num && truthyStr r.name && truthyStr r.price) = true →
        0 < Hybrid.parsePrice r.price →
        ¬ Hybrid.parsePrice r.price * cfg.PRICE_MULTIPLIER < cfg.MIN_PRICE_THRESHOLD →
        cfg.REQUIRE_IMAGES = true → Hybrid.extractImages r = [] →
        Hybrid.normalizeProduct cfg st r =
          ({ st with reasons :=
              { st.reasons with noImages := st.reasons.noImages + 1 } }, none))
    ∧ ((truthyStr r.article_num && truthyStr r.name && truthyStr r.price) = true →
        0 < Hybrid.parsePrice r.price →
        ¬ Hybrid.parsePrice r.price * cfg.PRICE_MULTIPLIER < cfg.MIN_PRICE_THRESHOLD →
        (cfg.REQUIRE_IMAGES = false ∨ Hybrid.extractImages r ≠ []) →
        (Hybrid.normalizeProduct cfg st r).1 = st
          ∧ ∃ prod, (Hybrid.normalizeProduct cfg st r).2 = some prod) := by
  refine ⟨fun h => norm_reject_fields cfg st r h,
    fun h hle => norm_reject_price cfg st r h hle,
    fun h hpos hlt => norm_reject_low cfg st r h hpos hlt,
    fun h hpos hge hreq himg => norm_reject_img cfg st r h hpos hge hreq himg,
    fun h hpos hge himgs => ?_⟩
  rw [norm_accept cfg st r h hpos hge himgs]
  exact ⟨rfl, _, rfl⟩

/-- C2 witness: a record without a price field is rejected at the
data-validity check with exactly one `invalidData` increment. -/
theorem c2_witness :
    Hybrid.normalizeProduct Hybrid.part001Cfg (Hybrid.initStats 0) rowNoPrice
      = (⟨0, 0, 0, 0, 0, 0, ⟨0, 0, 1, 0⟩⟩, none) := by
  rw [(c2_rejection_order Hybrid.part001Cfg (Hybrid.initStats 0) rowNoPrice).1 (by decide)]
  rfl

/-- C3: evaluation of the code at the failing input.  A run over one valid
record (`rowA1`) whose upsert call fails ends with `errors = 2` — the
increment in `upsertEcwidProduct`'s catch block plus the one in
`processProduct`'s catch block — so
`total = 1 ≠ 0 + 0 + 2 = processed + ignored + errors`: the partition
invariant claimed by the spec does not hold on the code. -/
theorem c3_partition_violated :
    (Hybrid.runSync Hybrid.part001Cfg [(rowA1, ⟨.items [], .thrown ("HTTP 500")⟩)]).1
        = ⟨1, 0, 0, 0, 0, 2, ⟨0, 0, 0, 1⟩⟩
    ∧ ¬ ((Hybrid.runSync Hybrid.part001Cfg [(rowA1, ⟨.items [], .thrown ("HTTP 500")⟩)]).1.total
        = (Hybrid.runSync Hybrid.part001Cfg
            [(rowA1, ⟨.items [], .thrown ("HTTP 500")⟩)]).1.processed
          + (Hybrid.runSync Hybrid.part001Cfg
              [(rowA1, ⟨.items [], .thrown ("HTTP 500")⟩)]).1.ignored
          + (Hybrid.runSync Hybrid.part001Cfg
              [(rowA1, ⟨.items [], .thrown ("HTTP 500")⟩)]).1.errors) := by
  rw [run_rowA1_fail]
  exact ⟨rfl, by decide⟩

/-- C6 is false as stated: src/unnamed/part_001's `parseStock` strips every
non-digit character before parsing, so `stock = 7.9` (which stringifies to
`"7.9"`) yields `79`, not the claimed floor `7`, and `stock = -5`
(stringified `"-5"`) yields `5`, not the claimed `0`. -/
theorem c6_counterexample :
    Hybrid.parseStock (some ("7.9")) = 79 ∧ (79 : ℕ) ≠ 7
    ∧ Hybrid.parseStock (some ("-5")) = 5 ∧ (5 : ℕ) ≠ 0 := by
  exact ⟨by decide, by decide, by decide, by decide⟩

/-- C6 (amended): stock sanitation never rejects a record and always yields
a non-negative integer, but the two cited implementations disagree: the
stock branch of `MSYEcwidSync.validateProduct` (src/server.js) behaves as
claimed (`-5 ↦ 0`, `"abc" ↦ 0`, `undefined ↦ 0`, `NaN ↦ 0`, `7.9 ↦ 7`),
while src/unnamed/part_001's `parseStock` strips non-digit characters before
parsing, so `-5 ↦ 5` and `7.9 ↦ 79`; non-numeric, empty and missing values
still coerce to `0` there. -/
theorem c6_stock_sanitation :
    Server.sanitizeStock (.num (-5)) = 0
    ∧ Server.sanitizeStock (.str ("abc")) = 0
    ∧ Server.sanitizeStock .undef = 0
    ∧ Server.sanitizeStock .nan = 0
    ∧ Server.sanitizeStock (.num (79/10)) = 7
    ∧ Hybrid.parseStock (some ("-5")) = 5
    ∧ Hybrid.parseStock (some ("abc")) = 0
    ∧ Hybrid.parseStock none = 0
    ∧ Hybrid.parseStock (some ("7.9")) = 79 := by
  have hneg : ((-5 : ℚ) < 0) := by norm_num
  have hpos : ¬ ((79 : ℚ)/10 < 0) := by norm_num
  have hfl : ⌊(79 : ℚ)/10⌋ = 7 := by
    rw [Int.floor_eq_iff]
    norm_num
  refine ⟨by simp [Server.sanitizeStock, hneg], rfl, rfl, rfl,
    by simp [Server.sanitizeStock, hpos, hfl], by decide, by decide, rfl, by decide⟩

/-- C4 is false as stated: an HTTP-200 CSV response whose parse yields zero
valid rows is returned as a successful empty CSV result — the JSON source is
not tried even though it would succeed, and the reported source stays
`CSV_PRIMARY`.  The claim requires fallback on a malformed/empty parse. -/
theorem c4_counterexample :
    Hybrid.fetchProductsMultiSource (.ok [rowNoPrice]) (.ok (.priceList [rowA1]))
        = .ok ⟨.CSV_PRIMARY, [], []⟩
    ∧ Hybrid.FeedSource.CSV_PRIMARY ≠ Hybrid.FeedSource.JSON_FALLBACK := by
  exact ⟨by decide, by decide⟩

/-- C4 (amended): the CSV source is tried first and the JSON source is tried
if and only if the CSV fetch fails with a network error or an HTTP error
status — an HTTP-200 body parsing to zero valid rows counts as a successful
empty feed and does not trigger the fallback; the reported source reflects
the source that succeeded; when both sources fail, the fetch fails with an
error listing both sources' errors and the run processes no records. -/
theorem c4_fallback (json : Hybrid.FetchResp Hybrid.JsonBody) :
    (∀ rows, Hybrid.fetchProductsMultiSource (.ok rows) json
        = .ok ⟨.CSV_PRIMARY, rows.filter Hybrid.csvRowValid, []⟩)
    ∧ (∀ (status : ℕ) (items : List Hybrid.Row),
        Hybrid.fetchProductsMultiSource (.httpError status) (.ok (.priceList items))
          = .ok ⟨.JSON_FALLBACK, items, ["CSV: " ++ ("CSV error: " ++ toString status)]⟩)
    ∧ (∀ (s1 s2 : ℕ) (envs : List Hybrid.RecEnv),
        Hybrid.sync Hybrid.part001Cfg (.httpError s1) (.httpError s2) envs
          = .error ("Tutte le fonti fallite: CSV: " ++ ("CSV error: " ++ toString s1)
              ++ " | JSON: " ++ ("JSON error: " ++ toString s2))) := by
  exact ⟨fun rows => rfl, fun status items => rfl, fun s1 s2 envs => rfl⟩

/-- C4 witness: a succeeding CSV source is used as `CSV_PRIMARY` even when
the JSON endpoint would fail. -/
theorem c4_witness :
    Hybrid.fetchProductsMultiSource (.ok [rowA1]) (.httpError 500)
      = .ok ⟨.CSV_PRIMARY, [rowA1], []⟩ := by
  rw [(c4_fallback (.httpError 500)).1 [rowA1]]
  decide

/-- A run over the single valid record `rowB2` whose create call fails with
a duplicate-SKU conflict response. -/
theorem run_rowB2_conflict :
    Hybrid.runSync Hybrid.part001Cfg
        [(rowB2, ⟨.items [], .thrown ("Ecwid POST error: 409 - duplicate SKU")⟩)]
      = (⟨1, 0, 0, 0, 0, 2, ⟨0, 0, 0, 1⟩⟩,
         [⟨"B2", "create", "Ecwid POST error: 409 - duplicate SKU"⟩]) := by
  simp [Hybrid.runSync, Hybrid.processBatch, Hybrid.processProduct, normalize_rowB2,
    Hybrid.searchEcwidProduct, Hybrid.upsertEcwidProduct, Hybrid.initStats, prodB2]

/-- C7 is false as stated: a duplicate-SKU conflict reported by the
destination on a create attempt (a non-ok response to the POST) is handled
like any other error — the run counts the record as an error (twice) and
records an `errorSKUs` entry with step `create`; `updated` is not
incremented. -/
theorem c7_counterexample :
    (Hybrid.runSync Hybrid.part001Cfg
        [(rowB2, ⟨.items [], .thrown ("Ecwid POST error: 409 - duplicate SKU")⟩)]).1.updated = 0
    ∧ (Hybrid.runSync Hybrid.part001Cfg
        [(rowB2, ⟨.items [], .thrown ("Ecwid POST error: 409 - duplicate SKU")⟩)]).1.errors = 2
    ∧ (Hybrid.runSync Hybrid.part001Cfg
        [(rowB2, ⟨.items [], .thrown ("Ecwid POST error: 409 - duplicate SKU")⟩)]).1.created = 0
    ∧ (Hybrid.runSync Hybrid.part001Cfg
        [(rowB2, ⟨.items [], .thrown ("Ecwid POST error: 409 - duplicate SKU")⟩)]).2
      = [⟨"B2", "create", "Ecwid POST error: 409 - duplicate SKU"⟩] := by
  rw [run_rowB2_conflict]
  exact ⟨rfl, rfl, rfl, rfl⟩

/-- C7 (amended): no duplicate-key handling exists in the source.  For any
record whose normalization succeeds, a create attempt (SKU not found) whose
destination call fails — including a duplicate-SKU conflict response — is
counted as an error: `errors` is incremented twice (inner and outer catch),
`reasons.apiError` once, an `errorSKUs` entry with step `create` is recorded,
and `updated` (and every other counter) is left unchanged, so retried
creates of the same SKU are not reconciled idempotently as updates. -/
theorem c7_duplicate_create (cfg : Hybrid.SyncCfg) (st : Hybrid.Stats)
    (es : List Hybrid.ErrEntry) (r : Hybrid.Row) (prod : Hybrid.NormProduct) (msg : String)
    (hn : Hybrid.normalizeProduct cfg st r = (st, some prod)) :
    Hybrid.processProduct cfg st es r ⟨.items [], .thrown msg⟩
      = ({ st with errors := st.errors + 1 + 1,
                   reasons := { st.reasons with apiError := st.reasons.apiError + 1 } },
         es ++ [⟨prod.sku, "create", msg⟩]) := by
  simp [Hybrid.processProduct, hn, Hybrid.searchEcwidProduct, Hybrid.upsertEcwidProduct]

/-- C7 witness: the amended statement evaluated on `rowB2` with a failing
create call. -/
theorem c7_witness :
    Hybrid.processProduct Hybrid.part001Cfg (Hybrid.initStats 1) [] rowB2
        ⟨.items [], .thrown ("dup")⟩
      = (⟨1, 0, 0, 0, 0, 2, ⟨0, 0, 0, 1⟩⟩, [⟨"B2", "create", "dup"⟩]) := by
  rw [c7_duplicate_create Hybrid.part001Cfg (Hybrid.initStats 1) [] rowB2 prodB2 ("dup")
    (normalize_rowB2 (Hybrid.initStats 1))]
  rfl

/-- C10: when the destination search call for a SKU fails, the catch block
of `searchEcwidProduct` swallows the error — it bumps `reasons.apiError` and
returns `null` — so the engine treats the SKU as not found and proceeds to a
create attempt: with a succeeding create, the record ends `created` and
`processed`, with `errors` untouched and no `errorSKUs` entry, instead of
being recorded as failed with an API error. -/
theorem c10_search_failure (cfg : Hybrid.SyncCfg) (st : Hybrid.Stats)
    (es : List Hybrid.ErrEntry) (r : Hybrid.Row) (prod : Hybrid.NormProduct)
    (hn : Hybrid.normalizeProduct cfg st r = (st, some prod)) :
    Hybrid.searchEcwidProduct st .thrown
        = ({ st with reasons := { st.reasons with apiError := st.reasons.apiError + 1 } }, none)
    ∧ Hybrid.processProduct cfg st es r ⟨.thrown, .ok⟩
        = ({ st with processed := st.processed + 1, created := st.created + 1,
                     reasons := { st.reasons with apiError := st.reasons.apiError + 1 } },
           es) := by
  refine ⟨rfl, ?_⟩
  simp [Hybrid.processProduct, hn, Hybrid.searchEcwidProduct, Hybrid.upsertEcwidProduct]

/-- C10 witness: the statement evaluated on `rowC3` with a failing search
and a succeeding create. -/
theorem c10_witness :
    Hybrid.processProduct Hybrid.part001Cfg (Hybrid.initStats 1) [] rowC3 ⟨.thrown, .ok⟩
      = (⟨1, 1, 1, 0, 0, 0, ⟨0, 0, 0, 1⟩⟩, []) := by
  rw [(c10_search_failure Hybrid.part001Cfg (Hybrid.initStats 1) [] rowC3 prodC3
    (normalize_rowC3 (Hybrid.initStats 1))).2]
  rfl

/-- C5: retry policy of `EcwidSyncManager.withRetry`.  (a) A call whose
first attempt fails with a definitive status (404, 401 or 403) is attempted
exactly once: the error propagates immediately with no sleeps.  (b) Under
the enhanced configuration (maxRetries 7, retryDelay 1500, cap 60000,
jitter in `[0, 1000)`), a call persistently failing with HTTP 503 is
attempted the configured maximum 7 times, sleeping 6 strictly increasing
backoff delays.  (c) The basic configuration (maxRetries 5, retryDelay
1000, cap 30000, no jitter) sleeps the strictly increasing delays
1000, 2000, 4000, 8000 before exhausting its 5 attempts. -/
theorem c5_retry_policy (jitter : ℕ → ℚ)
    (h0 : ∀ n, 0 ≤ jitter n) (h1 : ∀ n, jitter n < 1000) :
    (∀ (calls : ℕ → Retry.CallOutcome) (s : Option ℕ), Retry.isDefinitiveStatus s = true →
        calls 1 = .err s →
        Retry.withRetry 7 1500 60000 jitter calls = (.definitive s 1, []))
    ∧ ((Retry.withRetry 7 1500 60000 jitter (fun _ => .err (some 503))).1
          = .exhausted 7
        ∧ (Retry.withRetry 7 1500 60000 jitter (fun _ => .err (some 503))).2
          = [Retry.backoffDelay 1500 60000 jitter 1, Retry.backoffDelay 1500 60000 jitter 2,
             Retry.backoffDelay 1500 60000 jitter 3, Retry.backoffDelay 1500 60000 jitter 4,
             Retry.backoffDelay 1500 60000 jitter 5, Retry.backoffDelay 1500 60000 jitter 6]
        ∧ (Retry.withRetry 7 1500 60000 jitter (fun _ => .err (some 503))).2.Chain' (· < ·))
    ∧ ((Retry.withRetry 5 1000 30000 (fun _ => 0) (fun _ => .err (some 503))).1
          = .exhausted 5
        ∧ (Retry.withRetry 5 1000 30000 (fun _ => 0) (fun _ => .err (some 503))).2
          = [1000, 2000, 4000, 8000]
        ∧ (Retry.withRetry 5 1000 30000 (fun _ => 0)
            (fun _ => .err (some 503))).2.Chain' (· < ·)) := by
  have key : ∀ a : ℕ, 1 ≤ a → a ≤ 5 →
      Retry.backoffDelay 1500 60000 jitter a < Retry.backoffDelay 1500 60000 jitter (a + 1) := by
    intro a ha1 ha5
    have hb2 : (1 : ℚ) ≤ 2 ^ (a - 1) := by interval_cases a <;> norm_num
    have hb : (2 : ℚ) ^ (a - 1) ≤ 16 := by interval_cases a <;> norm_num
    have hsucc : (2 : ℚ) ^ (a + 1 - 1) = 2 * 2 ^ (a - 1) := by
      interval_cases a <;> norm_num
    have hja := h0 a
    have hja' := h1 a
    have hjb := h0 (a + 1)
    have hjb' := h1 (a + 1)
    rw [Retry.backoffDelay, Retry.backoffDelay, hsucc]
    rw [min_eq_left (by linarith), min_eq_left (by linarith)]
    linarith
  have htr : (Retry.withRetry 7 1500 60000 jitter (fun _ => .err (some 503))).2
      = [Retry.backoffDelay 1500 60000 jitter 1, Retry.backoffDelay 1500 60000 jitter 2,
         Retry.backoffDelay 1500 60000 jitter 3, Retry.backoffDelay 1500 60000 jitter 4,
         Retry.backoffDelay 1500 60000 jitter 5, Retry.backoffDelay 1500 60000 jitter 6] := rfl
  have e1 : Retry.backoffDelay 1000 30000 (fun _ => 0) 1 = 1000 := by
    rw [Retry.backoffDelay, min_eq_left (by norm_num)]; norm_num
  have e2 : Retry.backoffDelay 1000 30000 (fun _ => 0) 2 = 2000 := by
    rw [Retry.backoffDelay, min_eq_left (by norm_num)]; norm_num
  have e3 : Retry.backoffDelay 1000 30000 (fun _ => 0) 3 = 4000 := by
    rw [Retry.backoffDelay, min_eq_left (by norm_num)]; norm_num
  have e4 : Retry.backoffDelay 1000 30000 (fun _ => 0) 4 = 8000 := by
    rw [Retry.backoffDelay, min_eq_left (by norm_num)]; norm_num
  have htr2 : (Retry.withRetry 5 1000 30000 (fun _ => 0) (fun _ => .err (some 503))).2
      = [1000, 2000, 4000, 8000] := by
    rw [show (Retry.withRetry 5 1000 30000 (fun _ => 0) (fun _ => .err (some 503))).2
        = [Retry.backoffDelay 1000 30000 (fun _ => 0) 1,
           Retry.backoffDelay 1000 30000 (fun _ => 0) 2,
           Retry.backoffDelay 1000 30000 (fun _ => 0) 3,
           Retry.backoffDelay 1000 30000 (fun _ => 0) 4] from rfl, e1, e2, e3, e4]
  refine ⟨?_, ⟨rfl, htr, ?_⟩, ⟨rfl, htr2, ?_⟩⟩
  · intro calls s hdef hcall
    simp [Retry.withRetry, Retry.withRetryGo, hcall, hdef]
  · rw [htr]
    refine List.chain'_cons.mpr ⟨key 1 (by norm_num) (by norm_num),
      List.chain'_cons.mpr ⟨key 2 (by norm_num) (by norm_num),
        List.chain'_cons.mpr ⟨key 3 (by norm_num) (by norm_num),
          List.chain'_cons.mpr ⟨key 4 (by norm_num) (by norm_num),
            List.chain'_cons.mpr ⟨key 5 (by norm_num) (by norm_num),
              List.chain'_singleton _⟩⟩⟩⟩⟩
  · rw [htr2]
    refine List.chain'_cons.mpr ⟨by norm_num,
      List.chain'_cons.mpr ⟨by norm_num,
        List.chain'_cons.mpr ⟨by norm_num, List.chain'_singleton _⟩⟩⟩

/-- C5 witness: a definitive 404 on the first attempt propagates with no
retry, and the persistent-503 run sleeps exactly 6 delays. -/
theorem c5_witness :
    Retry.withRetry 7 1500 60000 (fun _ => 0) (fun _ => .err (some 404))
        = (.definitive (some 404) 1, [])
    ∧ (Retry.withRetry 7 1500 60000 (fun _ => 0) (fun _ => .err (some 503))).2.length = 6 := by
  have h := c5_retry_policy (fun _ => 0) (fun _ => le_refl 0) (fun _ => by norm_num)
  exact ⟨h.1 (fun _ => .err (some 404)) (some 404) rfl rfl, by rw [h.2.1.2.1]; rfl⟩

/-- C8 is false as stated: with one run already active (ghost counter
`activeRuns = 1`), a second trigger is not rejected — the handler responds
by starting a run (never the "already running" response) and a second
concurrent run begins (`activeRuns` becomes 2). -/
theorem c8_counterexample :
    (handleSyncPost ⟨1, Hybrid.initStats 0⟩).1 = .runStarted
    ∧ (handleSyncPost ⟨1, Hybrid.initStats 0⟩).1 ≠ .alreadyRunning
    ∧ (handleSyncPost ⟨1, Hybrid.initStats 0⟩).2.activeRuns = 2 := by
  exact ⟨rfl, by decide, rfl⟩

/-- C8 (amended): the `POST /sync` endpoint has no already-running guard:
in every server state — including while a run is Fetching or Processing —
a trigger immediately starts another sync run (which resets the shared
statistics); no "already running" rejection exists. -/
theorem c8_no_guard (s : ServerState) :
    (handleSyncPost s).1 = .runStarted
    ∧ (handleSyncPost s).1 ≠ .alreadyRunning
    ∧ (handleSyncPost s).2.activeRuns = s.activeRuns + 1
    ∧ (handleSyncPost s).2.stats = Hybrid.initStats 0 := by
  exact ⟨rfl, by simp [handleSyncPost], rfl, rfl⟩

/-- C8 witness: the amended statement at a concrete state with three active
runs. -/
theorem c8_witness :
    (handleSyncPost ⟨3, Hybrid.initStats 5⟩).1 = .runStarted :=
  (c8_no_guard ⟨3, Hybrid.initStats 5⟩).1

/-- C9 is false as stated for the reported error-record list: with 11 error
entries `0 … 10`, the report retains `errorSKUs.slice(0, 10)` — the 10
OLDEST entries `0 … 9` — and drops the most recent entry `10`, which is the
opposite of FIFO eviction of the oldest. -/
theorem c9_counterexample :
    reportErrorSKUs (List.range 11) = List.range 10
    ∧ (10 : ℕ) ∈ List.range 11
    ∧ (10 : ℕ) ∉ reportErrorSKUs (List.range 11) := by
  exact ⟨by decide, by decide, by decide⟩

/-- C9 (amended): the in-memory log is bounded by the fixed cap 2000 with
FIFO eviction — appending to a full log drops the oldest entries, keeping a
suffix (the most recent entries); the reported error-record list is bounded
by the fixed cap 10 but keeps the FIRST 10 entries (the oldest), dropping
the newest ones. -/
theorem c9_bounded_tail (logs : List ℕ) (e : ℕ) (h : logs.length ≤ 2000) (es : List ℕ) :
    logAppend 2000 logs e = (logs ++ [e]).drop (logs.length + 1 - 2000)
    ∧ (logAppend 2000 logs e).length ≤ 2000
    ∧ reportErrorSKUs es = es.take 10
    ∧ (reportErrorSKUs es).length ≤ 10 := by
  have hlen : (logs ++ [e]).length = logs.length + 1 := by simp
  refine ⟨?_, ?_, rfl, ?_⟩
  · simp only [logAppend]
    by_cases hc : 2000 < (logs ++ [e]).length
    · rw [if_pos hc, hlen]
    · rw [if_neg hc]
      rw [hlen] at hc
      have h0 : logs.length + 1 - 2000 = 0 := by omega
      rw [h0, List.drop_zero]
  · simp only [logAppend]
    by_cases hc : 2000 < (logs ++ [e]).length
    · rw [if_pos hc]
      simp only [List.length_drop, hlen]
      omega
    · rw [if_neg hc]
      rw [hlen] at hc ⊢
      omega
  · simp only [reportErrorSKUs, List.length_take]
    omega

/-- C9 witness: the amended statement at concrete inputs. -/
theorem c9_witness :
    logAppend 2000 [7, 8] 9 = ([7, 8] ++ [9]).drop (2 + 1 - 2000)
    ∧ (reportErrorSKUs [1, 2, 3] : List ℕ) = [1, 2, 3].take 10 := by
  have h := c9_bounded_tail [7, 8] 9 (by decide) [1, 2, 3]
  exact ⟨h.1, h.2.2.1⟩
